import Mathlib

/-!
Verification of the Pokemon-DSA battle engine against its specification.

The Lean definitions below are a shallow embedding of the Python sources
`pokemon_base.py`, `poke_team.py` and `battle.py`:

* Python numbers are modelled by `ℚ` (all health / stat arithmetic in the
  source is exact on dyadic rationals, so floating point introduces no
  deviation on the values reachable here) and Python ints by `ℤ`/`ℕ`.
* The type-effectiveness table (`type_effectiveness.csv`, an external data
  file) is modelled as an arbitrary function `Eff`.
* A trainer's Pokedex (a `BSet` of positive integers) is a `Finset ℕ`.
* The container ADTs (`ArrayStack`, `CircularQueue`, `ArraySortedList`,
  `ArrayR` from the `data_structures` package, not part of this repository's
  sources) are modelled as Lean lists with the standard stack / queue /
  sorted-list operations, exactly as the spec describes their contract:
  stack front = top = head, queue front = head, sorted list in ascending
  key order.
-/

/-- Number of elemental types (`PokeType` has 15 members). A poketype is
modelled as a natural number below 15. -/
def NUM_POKE_TYPES : ℕ := 15

/-- The type-effectiveness table of `TypeEffectiveness.get_effectiveness`:
attack type and defend type give a rational multiplier.  The concrete values
come from an external CSV file, so the table is kept abstract. -/
def Eff : Type := ℕ → ℕ → ℚ

/-- Embedding of the `Pokemon` class of `pokemon_base.py`. -/
structure Pokemon where
  name : String
  level : ℤ
  health : ℚ
  poketype : ℕ
  battle_power : ℚ
  evolution_line : List String
  experience : ℤ
  defence : ℚ
  speed : ℚ
deriving Repr, DecidableEq

instance : Inhabited Pokemon :=
  ⟨{ name := "", level := 0, health := 0, poketype := 0, battle_power := 0,
     evolution_line := [], experience := 0, defence := 0, speed := 0 }⟩

/-- `Pokemon.is_alive`: the Pokemon is alive iff its health is positive. -/
def Pokemon.is_alive (p : Pokemon) : Bool := 0 < p.health

/-- `Pokemon.set_health`. -/
def Pokemon.set_health (p : Pokemon) (health : ℚ) : Pokemon :=
  { p with health := health }

/-- `Pokemon.attack` of `pokemon_base.py`: tiered raw damage from the
defender's defence versus the attacker's battle power, multiplied by the
type-effectiveness factor. -/
def Pokemon.attack (eff : Eff) (self other_pokemon : Pokemon) : ℚ :=
  let defence := other_pokemon.defence
  let battle_power := self.battle_power
  let damage : ℚ :=
    if defence < battle_power / 2 then battle_power - defence
    else if defence < battle_power then
      ((⌈battle_power * 5 / 8 - defence / 4⌉ : ℤ) : ℚ)
    else ((⌈battle_power / 4⌉ : ℤ) : ℚ)
  damage * eff self.poketype other_pokemon.poketype

/-- `Pokemon.defend`: halve the incoming (integral) damage when it is below
the Pokemon's defence, then subtract from health. -/
def Pokemon.defend (p : Pokemon) (damage : ℤ) : Pokemon :=
  let effective_damage : ℚ :=
    if (damage : ℚ) < p.defence then (damage : ℚ) / 2 else (damage : ℚ)
  { p with health := p.health - effective_damage }

/-- `Pokemon._evolve`: advance the name to the next stage of the evolution
line and multiply battle power, health, speed and defence by 1.5. -/
def Pokemon.evolve (p : Pokemon) : Pokemon :=
  let evolved_name :=
    p.evolution_line.getD (p.evolution_line.indexOf p.name + 1) p.name
  { p with
    name := evolved_name,
    battle_power := p.battle_power * ((3 : ℚ) / 2),
    health := p.health * ((3 : ℚ) / 2),
    speed := p.speed * ((3 : ℚ) / 2),
    defence := p.defence * ((3 : ℚ) / 2) }

/-- `Pokemon.level_up`: increment the level, then evolve when the name is
not the last stage of a nonempty evolution line.  (Python's `list.index`
raises when the name is absent; `List.indexOf` then returns the length,
which is only reachable from states that crash the original program.) -/
def Pokemon.level_up (p : Pokemon) : Pokemon :=
  let p := { p with level := p.level + 1 }
  if 0 < p.evolution_line.length ∧
      p.evolution_line.indexOf p.name ≠ p.evolution_line.length - 1 then
    p.evolve
  else p

def pokeTenPower : Pokemon :=
  { name := "Ten", level := 1, health := 12, poketype := 0, battle_power := 10,
    evolution_line := [], experience := 0, defence := 2, speed := 6 }

def pokeFiveDefence : Pokemon :=
  { name := "Five", level := 1, health := 12, poketype := 0, battle_power := 4,
    evolution_line := [], experience := 0, defence := 5, speed := 3 }

def effOne : Eff := fun _ _ => 1

/-- The matching loop of `PokeTeam.regenerate_team` for one combatant of
the pristine snapshot: scan the species catalogue and, at every template
whose evolution line equals the combatant's, overwrite the combatant's
health with that template's health (the source has no `break`, so a later
match overwrites an earlier one — names and other stats are never touched).
The catalogue parameter models `POKE_LIST`; the concrete catalogue lives in
the `pokemon` module, outside these sources — per the spec it is a
read-only list of templates matched by evolution-lineage equality. -/
def regenerate_pokemon (poke_list : List Pokemon) (original_pokemon : Pokemon) : Pokemon :=
  poke_list.foldl
    (fun pk p =>
      if pk.evolution_line = p.evolution_line then pk.set_health p.health else pk)
    original_pokemon

/-- `PokeTeam.regenerate_team`: run the matching loop over every combatant
of the pristine snapshot (the team is then reassembled, which does not
change any combatant's stats). -/
def regenerate_team (poke_list : List Pokemon) (original_team : List Pokemon) : List Pokemon :=
  original_team.map (regenerate_pokemon poke_list)

def baseTemplate : Pokemon :=
  { name := "Base", level := 1, health := 20, poketype := 0, battle_power := 8,
    evolution_line := ["Base", "Evolved"], experience := 0, defence := 3, speed := 4 }

def evolvedDamaged : Pokemon :=
  { name := "Evolved", level := 5, health := 3, poketype := 0, battle_power := 12,
    evolution_line := ["Base", "Evolved"], experience := 0, defence := 4, speed := 6 }

/-- A combat-time memory model for the aliasing behaviour of
`PokeTeam.choose_randomly` / `assemble_team`: the `store` holds the
combatant objects, and the live team and the pristine snapshot each hold
references (indices) into the store.  `choose_randomly` ends with
`self.original_team = self.team`, so both reference lists denote the very
same objects; assembly later replaces the live container but re-inserts the
same references. -/
structure TeamMem where
  store : List Pokemon
  team_refs : List ℕ
  original_refs : List ℕ
deriving DecidableEq

def choose_team (picks : List Pokemon) : TeamMem :=
  { store := picks, team_refs := List.range picks.length,
    original_refs := List.range picks.length }

/-- An in-battle mutation of the front combatant of the live team
(`defend` when it is attacked, `level_up` when it downs an enemy). -/
inductive CombatOp where
  | defend_op : ℤ → CombatOp
  | level_up_op : CombatOp
deriving DecidableEq

def apply_front (f : Pokemon → Pokemon) (m : TeamMem) : TeamMem :=
  match m.team_refs with
  | [] => m
  | r :: _ => { m with store := m.store.set r (f (m.store.getD r default)) }

def apply_op : CombatOp → TeamMem → TeamMem
  | CombatOp.defend_op d, m => apply_front (fun p => p.defend d) m
  | CombatOp.level_up_op, m => apply_front Pokemon.level_up m

def apply_ops (ops : List CombatOp) (m : TeamMem) : TeamMem :=
  ops.foldl (fun m op => apply_op op m) m

/-- The stats recorded by the pristine snapshot: what reading
`original_team` observes. -/
def snapshot_stats (m : TeamMem) : List Pokemon :=
  m.original_refs.map (fun r => m.store.getD r default)

/-- The stats of the live team's combatants. -/
def live_stats (m : TeamMem) : List Pokemon :=
  m.team_refs.map (fun r => m.store.getD r default)

/-- Rounding to two decimal places, modelling Python's `round(x, 2)` in
`Trainer.get_pokedex_completion`.  (Python rounds halves to even; the only
inputs reachable there are `k / 15` with `0 ≤ k ≤ 15`, none of which is a
half-way case, so half-up rounding agrees with the source on every
reachable input.) -/
def round2 (x : ℚ) : ℚ := ((round (x * 100) : ℤ) : ℚ) / 100

/-- `Trainer.register_pokemon`: add the poketype (shifted by one, as the
`BSet` only accepts positive integers) to the Pokedex. -/
def register_pokemon (pokedex : Finset ℕ) (p : Pokemon) : Finset ℕ :=
  insert (p.poketype + 1) pokedex

/-- `Trainer.get_pokedex_completion`: number of registered types over the
total number of types, rounded to two decimals. -/
def get_pokedex_completion (pokedex : Finset ℕ) : ℚ :=
  round2 ((pokedex.card : ℚ) / (NUM_POKE_TYPES : ℚ))

/-- Result of one `Battle.attack_and_defend` call: the (possibly leveled-up)
attacker, the damaged defender, and whether `Battle.killed` removed the
defender from its roster. -/
structure AttackOutcome where
  attacker : Pokemon
  defender : Pokemon
  defender_removed : Bool
deriving Repr, DecidableEq

/-- `Battle.attack_and_defend`: compute the attack damage, scale it by the
quotient of the two trainers' Pokedex completions, apply `defend` with the
ceiling of the result, and when the defender is no longer alive run
`Battle.killed` — which removes the defender from its roster and (since
`together_dead` defaults to `False` here) levels up the attacker. -/
def Battle.attack_and_defend (eff : Eff) (attacker defender : Pokemon)
    (dex_attacker dex_defender : Finset ℕ) : AttackOutcome :=
  let effective_damage := Pokemon.attack eff attacker defender
  let effective_damage := effective_damage *
    (get_pokedex_completion dex_attacker / get_pokedex_completion dex_defender)
  let defender := defender.defend ⌈effective_damage⌉
  if defender.is_alive then
    { attacker := attacker, defender := defender, defender_removed := false }
  else
    { attacker := attacker.level_up, defender := defender, defender_removed := true }

/-- `Battle.deduct_two`: both Pokemon take 2 raw damage; then any Pokemon
that fainted is removed (`Battle.killed`), and when exactly one fainted, the
survivor levels up (`together_dead` suppresses leveling when both faint).
Returns `(p1, p2, removed1, removed2)`. -/
def Battle.deduct_two (p1 p2 : Pokemon) : Pokemon × Pokemon × Bool × Bool :=
  let p1 := p1.defend 2
  let p2 := p2.defend 2
  if !p1.is_alive && !p2.is_alive then (p1, p2, true, true)
  else if !p1.is_alive then (p1, p2.level_up, true, false)
  else if !p2.is_alive then (p1.level_up, p2, false, true)
  else (p1, p2, false, false)

/-- The trailing step of `Battle.fight`: when both Pokemon are still alive
after the clash, apply the flat chip-damage step `Battle.deduct_two`. -/
def Battle.post_round (p1 p2 : Pokemon) (removed1 removed2 : Bool) :
    Pokemon × Pokemon × Bool × Bool :=
  if p1.is_alive && p2.is_alive then
    let d := Battle.deduct_two p1 p2
    (d.1, d.2.1, removed1 || d.2.2.1, removed2 || d.2.2.2)
  else (p1, p2, removed1, removed2)

/-- The different-speed branch of `Battle.fight` for an already ordered pair:
the first (faster) attacker acts via `attack_and_defend`; the second acts
back only when it is still alive afterwards. -/
structure OrderedClash where
  first : Pokemon
  second : Pokemon
  first_removed : Bool
  second_removed : Bool
deriving Repr, DecidableEq

def Battle.fight_ordered (eff : Eff) (first_attacker second_attacker : Pokemon)
    (dex_first dex_second : Finset ℕ) : OrderedClash :=
  let o1 := Battle.attack_and_defend eff first_attacker second_attacker dex_first dex_second
  if o1.defender.is_alive then
    let o2 := Battle.attack_and_defend eff o1.defender o1.attacker dex_second dex_first
    { first := o2.defender, second := o2.attacker,
      first_removed := o2.defender_removed, second_removed := o1.defender_removed }
  else
    { first := o1.attacker, second := o1.defender,
      first_removed := false, second_removed := o1.defender_removed }

/-- Final state of one `Battle.fight` clash: the two front Pokemon after the
round, whether each was removed from its roster, and the updated Pokedexes. -/
structure FightResult where
  p1 : Pokemon
  p2 : Pokemon
  removed1 : Bool
  removed2 : Bool
  dex1 : Finset ℕ
  dex2 : Finset ℕ
deriving DecidableEq

/-- `Battle.fight`: register each Pokemon in the opposing trainer's Pokedex;
if the speeds differ, the faster attacks first and the slower strikes back
only if it survives; with equal speeds both `attack_and_defend` calls run
unconditionally.  Finally, if both are still alive, the chip-damage step
runs. -/
def Battle.fight (eff : Eff) (p1 p2 : Pokemon) (dex1 dex2 : Finset ℕ) : FightResult :=
  let dex1 := register_pokemon dex1 p2
  let dex2 := register_pokemon dex2 p1
  let (a, b, removed1, removed2) :=
    if p1.speed ≠ p2.speed then
      if p1.speed > p2.speed then
        let r := Battle.fight_ordered eff p1 p2 dex1 dex2
        (r.first, r.second, r.first_removed, r.second_removed)
      else
        let r := Battle.fight_ordered eff p2 p1 dex2 dex1
        (r.second, r.first, r.second_removed, r.first_removed)
    else
      let o1 := Battle.attack_and_defend eff p1 p2 dex1 dex2
      let o2 := Battle.attack_and_defend eff o1.defender o1.attacker dex2 dex1
      (o2.defender, o2.attacker, o2.defender_removed, o1.defender_removed)
  let (a, b, removed1, removed2) := Battle.post_round a b removed1 removed2
  { p1 := a, p2 := b, removed1 := removed1, removed2 := removed2,
    dex1 := dex1, dex2 := dex2 }

def strikerPoke : Pokemon :=
  { name := "Striker", level := 1, health := 10, poketype := 0, battle_power := 20,
    evolution_line := [], experience := 0, defence := 1, speed := 10 }

def victimPoke : Pokemon :=
  { name := "Victim", level := 1, health := 10, poketype := 0, battle_power := 5,
    evolution_line := [], experience := 0, defence := 1, speed := 5 }

def dexOne : Finset ℕ := {1}

/-- A trainer during a battle: the remaining team in front-to-back order
(the front element is whichever Pokemon the active container exposes first)
and the Pokedex. -/
structure TrainerState where
  team : List Pokemon
  pokedex : Finset ℕ
deriving DecidableEq

/-- One round of `Battle.set_battle`-style play: `fight_enemy_pokemon`
fetches the front Pokemon of each team, `fight` resolves the clash, and
`killed`'s `remove_pokemon` calls drop any fainted front Pokemon from its
roster (a surviving front Pokemon stays, mutated in place). -/
def Battle.round_step (eff : Eff) (t1 t2 : TrainerState) : TrainerState × TrainerState :=
  match t1.team, t2.team with
  | p1 :: rest1, p2 :: rest2 =>
    let r := Battle.fight eff p1 p2 t1.pokedex t2.pokedex
    ({ team := if r.removed1 then rest1 else r.p1 :: rest1, pokedex := r.dex1 },
     { team := if r.removed2 then rest2 else r.p2 :: rest2, pokedex := r.dex2 })
  | _, _ => (t1, t2)

def mirrorOne : Pokemon :=
  { name := "MirrorOne", level := 1, health := 5, poketype := 0, battle_power := 20,
    evolution_line := [], experience := 0, defence := 1, speed := 7 }

def mirrorTwo : Pokemon :=
  { name := "MirrorTwo", level := 1, health := 5, poketype := 0, battle_power := 20,
    evolution_line := [], experience := 0, defence := 1, speed := 7 }

/-- The round loop shared by `set_battle`, `rotate_battle` and
`optimise_battle`: while both teams are nonempty, announce the round and
run one round (the per-round body is the `step` parameter: fight plus the
mode-specific post-round action).  Fuel makes the recursion structural;
`none` means the fuel ran out before a team was emptied. -/
def Battle.battle_loop (step : TrainerState → TrainerState → TrainerState × TrainerState) :
    ℕ → TrainerState → TrainerState → ℕ → List String →
    List String × Option (TrainerState × TrainerState)
  | 0, _, _, _, trace => (trace, none)
  | fuel + 1, t1, t2, i, trace =>
    if 0 < t1.team.length ∧ 0 < t2.team.length then
      let s := step t1 t2
      Battle.battle_loop step fuel s.1 s.2 (i + 1)
        (trace ++ ["~ Round " ++ toString (i + 1) ++ " ~"])
    else (trace, some (t1, t2))

/-- `Battle.battle_result`: `none` is a draw; `some true` means trainer 1's
team won, `some false` trainer 2's. -/
def Battle.battle_result (t1 t2 : TrainerState) : Option Bool :=
  if t1.team.length = 0 ∧ t2.team.length = 0 then none
  else if t1.team.length = 0 then some false
  else some true

/-- `Battle.commence_battle`: raise `ValueError` when either trainer has no
team, otherwise run the battle loop and map the final rosters through
`battle_result`.  The first component is the combat narration emitted. -/
def Battle.commence_battle
    (step : TrainerState → TrainerState → TrainerState × TrainerState)
    (fuel : ℕ) (t1 t2 : TrainerState) :
    List String × Except String (Option (Option Bool)) :=
  if t1.team.length ≤ 0 ∨ t2.team.length ≤ 0 then
    ([], Except.error "Both trainers must have teams to commence battle")
  else
    let r := Battle.battle_loop step fuel t1 t2 0 []
    (r.1, Except.ok (r.2.map fun s => Battle.battle_result s.1 s.2))

/-- `PokeTeam.CRITERION_LIST`: the recognized sort criteria. -/
def CRITERION_LIST : List String :=
  ["health", "defence", "battle_power", "speed", "level"]

/-- The dynamic `getattr(pokemon, 'get_' + criterion)()` stat lookup used by
`assign_team` and `assemble_team`, for the recognized criteria. -/
def get_criterion (criterion : String) (p : Pokemon) : ℚ :=
  if criterion = "health" then p.health
  else if criterion = "defence" then p.defence
  else if criterion = "battle_power" then p.battle_power
  else if criterion = "speed" then p.speed
  else (p.level : ℚ)

/-- Python's lexicographic comparison of the two-component `ListItem` keys
`(order × stat, order × index)` used by the `ArraySortedList`. -/
def item_le (a b : Pokemon × ℚ × ℚ) : Prop :=
  a.2.1 < b.2.1 ∨ (a.2.1 = b.2.1 ∧ a.2.2 ≤ b.2.2)

instance item_le_decidable : DecidableRel item_le := fun a b => by
  unfold item_le
  exact inferInstance

instance item_le_trans : IsTrans (Pokemon × ℚ × ℚ) item_le := by
  constructor
  intro a b c hab hbc
  unfold item_le at hab hbc ⊢
  rcases hab with h1 | ⟨h1, h2⟩ <;> rcases hbc with h3 | ⟨h3, h4⟩
  · exact Or.inl (h1.trans h3)
  · exact Or.inl (h3 ▸ h1)
  · exact Or.inl (h1 ▸ h3)
  · exact Or.inr ⟨h1.trans h3, h2.trans h4⟩

instance item_le_total : IsTotal (Pokemon × ℚ × ℚ) item_le := by
  constructor
  intro a b
  unfold item_le
  rcases lt_trichotomy a.2.1 b.2.1 with h | h | h
  · exact Or.inl (Or.inl h)
  · rcases le_total a.2.2 b.2.2 with h2 | h2
    · exact Or.inl (Or.inr ⟨h, h2⟩)
    · exact Or.inr (Or.inr ⟨h.symm, h2⟩)
  · exact Or.inr (Or.inl h)

/-- `PokeTeam.assign_team`: re-key every element of the current
`ArraySortedList` (in its current order, indexed by its current position
`i`) with `(order × stat, order × i)` where `order` is −1 when `special`
has toggled `special_called` on, and `add` each to a fresh sorted list —
repeated sorted insertion, i.e. `List.orderedInsert`. -/
def assign_team (special_called : Bool) (criterion : String)
    (team : List Pokemon) : List (Pokemon × ℚ × ℚ) :=
  let order : ℚ := if special_called then -1 else 1
  (team.enum.map fun pr =>
      (pr.2, (order * get_criterion criterion pr.2, order * (pr.1 : ℚ)))).foldl
    (fun assembled item => List.orderedInsert item_le item assembled) []

/-- The value of `special_called` after n calls of `PokeTeam.special` in
OPTIMISED mode: each call flips the flag, which starts out False. -/
def special_after : ℕ → Bool
  | 0 => false
  | n + 1 => !(special_after n)

/-- The tie-break property claimed for `resort`: elements whose stat keys
tie keep their original (pre-resort) relative order — the element from the
lower original position comes first. -/
def ties_in_original_order (result : List (Pokemon × ℚ × ℚ)) : Prop :=
  result.Chain' (fun a b => a.2.1 = b.2.1 → |a.2.2| ≤ |b.2.2|)

/-- `PokeTeam.__getitem__` for an `ArrayStack`-backed team, first loop: pop
elements onto a temporary stack until the index is reached; the sought
Pokemon is then the temporary stack's top.  A stack is a list with its top
(= front) first.  Returns (found, remaining stack, temporary stack). -/
def stack_getitem_pop : ℕ → List Pokemon → List Pokemon →
    Option Pokemon × List Pokemon × List Pokemon
  | _, [], temp => (none, [], temp)
  | 0, x :: team, temp => (some x, team, x :: temp)
  | i + 1, x :: team, temp => stack_getitem_pop i team (x :: temp)

/-- `PokeTeam.__getitem__` for an `ArrayStack`-backed team, second loop:
pop everything off the temporary stack back onto the team stack. -/
def stack_push_back : List Pokemon → List Pokemon → List Pokemon
  | [], team => team
  | x :: temp, team => stack_push_back temp (x :: team)

def stack_getitem (team : List Pokemon) (index : ℕ) :
    Option Pokemon × List Pokemon :=
  let r := stack_getitem_pop index team []
  (r.1, stack_push_back r.2.2 r.2.1)

/-- `PokeTeam.__getitem__` for a `CircularQueue`-backed team: serve and
re-append `len(team)` times, remembering the element served at the sought
index.  A queue is a list with its front first. -/
def queue_getitem_loop (index : ℕ) : ℕ → ℕ → List Pokemon → Option Pokemon →
    Option Pokemon × List Pokemon
  | 0, _, q, found => (found, q)
  | n + 1, i, q, found =>
    match q with
    | [] => (found, q)
    | x :: rest =>
      queue_getitem_loop index n (i + 1) (rest ++ [x])
        (if i = index then some x else found)

def queue_getitem (team : List Pokemon) (index : ℕ) :
    Option Pokemon × List Pokemon :=
  queue_getitem_loop index team.length 0 team none

/-- `PokeTeam.__getitem__` for an `ArraySortedList`-backed team: direct
indexed access to the item's value. -/
def sorted_getitem (l : List (Pokemon × ℚ × ℚ)) (index : ℕ) : Option Pokemon :=
  (l.get? index).map fun it => it.1

/-- `PokeTeam.__getitem__` for an `ArrayR`-backed team: direct access. -/
def array_getitem (l : List Pokemon) (index : ℕ) : Option Pokemon :=
  l.get? index

def tieA : Pokemon :=
  { name := "TieA", level := 1, health := 9, poketype := 0, battle_power := 6,
    evolution_line := [], experience := 0, defence := 2, speed := 3 }

def tieB : Pokemon :=
  { name := "TieB", level := 1, health := 9, poketype := 0, battle_power := 7,
    evolution_line := [], experience := 0, defence := 2, speed := 4 }

theorem Pokemon.level_up_level (p : Pokemon) : (p.level_up).level = p.level + 1 := by
  unfold Pokemon.level_up Pokemon.evolve
  dsimp only
  split <;> rfl

theorem Pokemon.defend_level (p : Pokemon) (d : ℤ) : (p.defend d).level = p.level := rfl

theorem Pokemon.defend_health (p : Pokemon) (d : ℤ) :
    (p.defend d).health =
      p.health - (if (d : ℚ) < p.defence then (d : ℚ) / 2 else (d : ℚ)) := rfl

/-- C6: the damage tiers of `Pokemon.attack`, stated with the claim's
side conditions: first tier when defence < power/2, middle tier when
power/2 ≤ defence < power, last tier when power ≤ defence; and at the
boundary battle_power = 10, defence = 5 the strict comparison sends the
computation to the middle tier, not the first. -/
theorem attack_damage_tiers (eff : Eff) (self other : Pokemon) :
    (other.defence < self.battle_power / 2 →
      Pokemon.attack eff self other =
        (self.battle_power - other.defence) * eff self.poketype other.poketype) ∧
    (self.battle_power / 2 ≤ other.defence → other.defence < self.battle_power →
      Pokemon.attack eff self other =
        ((⌈self.battle_power * 5 / 8 - other.defence / 4⌉ : ℤ) : ℚ) *
          eff self.poketype other.poketype) ∧
    (0 ≤ self.battle_power → self.battle_power ≤ other.defence →
      Pokemon.attack eff self other =
        ((⌈self.battle_power / 4⌉ : ℤ) : ℚ) * eff self.poketype other.poketype) ∧
    (self.battle_power = 10 → other.defence = 5 →
      ¬ (other.defence < self.battle_power / 2) ∧
      Pokemon.attack eff self other = 5 * eff self.poketype other.poketype) := by
  refine ⟨?_, ?_, ?_, ?_⟩
  · intro h
    unfold Pokemon.attack
    dsimp only
    rw [if_pos h]
  · intro h1 h2
    unfold Pokemon.attack
    dsimp only
    rw [if_neg (not_lt.mpr h1), if_pos h2]
  · intro h0 h
    unfold Pokemon.attack
    dsimp only
    rw [if_neg (not_lt.mpr (le_trans (by linarith) h)), if_neg (not_lt.mpr h)]
  · intro hp hd
    have hnot : ¬ (other.defence < self.battle_power / 2) := by
      rw [hp, hd]; norm_num
    refine ⟨hnot, ?_⟩
    unfold Pokemon.attack
    dsimp only
    rw [if_neg hnot, if_pos (by rw [hp, hd]; norm_num)]
    rw [hp, hd]
    norm_num

/-- Witness for C6: a concrete attacker with battle power 10 against a
defender with defence 5 lands in the middle tier and deals 5 × effectiveness
damage. -/
theorem attack_damage_tiers_witness :
    ¬ (pokeFiveDefence.defence < pokeTenPower.battle_power / 2) ∧
      Pokemon.attack effOne pokeTenPower pokeFiveDefence =
        5 * effOne pokeTenPower.poketype pokeFiveDefence.poketype :=
  (attack_damage_tiers effOne pokeTenPower pokeFiveDefence).2.2.2 rfl rfl

theorem regenerate_pokemon_no_match (poke_list : List Pokemon) (pk : Pokemon)
    (h : ∀ p ∈ poke_list, pk.evolution_line ≠ p.evolution_line) :
    regenerate_pokemon poke_list pk = pk := by
  induction poke_list with
  | nil => rfl
  | cons p ps ih =>
    unfold regenerate_pokemon
    rw [List.foldl_cons, if_neg (h p (List.mem_cons_self p ps))]
    exact ih fun q hq => h q (List.mem_cons_of_mem p hq)

theorem regenerate_pokemon_unique_match (poke_list : List Pokemon) (pk t : Pokemon)
    (h : poke_list.filter (fun p => pk.evolution_line = p.evolution_line) = [t]) :
    regenerate_pokemon poke_list pk = pk.set_health t.health := by
  induction poke_list generalizing pk with
  | nil => simp at h
  | cons p ps ih =>
    by_cases hm : pk.evolution_line = p.evolution_line
    · rw [List.filter_cons_of_pos (by simpa using hm)] at h
      have hpt : p = t ∧ ps.filter (fun q => pk.evolution_line = q.evolution_line) = [] := by
        simpa using h
      unfold regenerate_pokemon
      rw [List.foldl_cons, if_pos hm, hpt.1]
      have hset : (pk.set_health t.health).evolution_line = pk.evolution_line := rfl
      exact regenerate_pokemon_no_match ps (pk.set_health t.health)
        (fun q hq => by
          rw [hset]
          have hnm := List.filter_eq_nil_iff.mp hpt.2 q hq
          simpa using hnm)
    · rw [List.filter_cons_of_neg (by simpa using hm)] at h
      unfold regenerate_pokemon
      rw [List.foldl_cons, if_neg hm]
      exact ih pk h

/-- C3 (amended): after regeneration, a combatant whose evolution line has
exactly one matching template in the catalogue gets that template's health
back, regardless of any damage taken — but its NAME is left untouched, so
an evolved combatant does NOT revert to the unevolved stage. -/
theorem regenerate_restores_health_not_name (poke_list team : List Pokemon)
    (pk t : Pokemon) (hmem : pk ∈ team)
    (hmatch : poke_list.filter (fun p => pk.evolution_line = p.evolution_line) = [t]) :
    regenerate_pokemon poke_list pk ∈ regenerate_team poke_list team ∧
    (regenerate_pokemon poke_list pk).health = t.health ∧
    (regenerate_pokemon poke_list pk).name = pk.name := by
  refine ⟨List.mem_map_of_mem _ hmem, ?_, ?_⟩
  · rw [regenerate_pokemon_unique_match poke_list pk t hmatch]
    rfl
  · rw [regenerate_pokemon_unique_match poke_list pk t hmatch]
    rfl

theorem regenerate_restores_health_not_name_witness :
    regenerate_pokemon [baseTemplate] evolvedDamaged ∈
      regenerate_team [baseTemplate] [evolvedDamaged] ∧
    (regenerate_pokemon [baseTemplate] evolvedDamaged).health = baseTemplate.health ∧
    (regenerate_pokemon [baseTemplate] evolvedDamaged).name = evolvedDamaged.name :=
  regenerate_restores_health_not_name [baseTemplate] [evolvedDamaged]
    evolvedDamaged baseTemplate (by simp) (by simp [evolvedDamaged, baseTemplate])

/-- Counterexample to C3 as stated: an evolved, damaged combatant regains
the base template's health on regeneration, but keeps the name "Evolved" —
it does not revert to the unevolved stage "Base" at the head of its
evolution line. -/
theorem regenerate_name_cex :
    (regenerate_pokemon [baseTemplate] evolvedDamaged).health = baseTemplate.health ∧
    (regenerate_pokemon [baseTemplate] evolvedDamaged).name = "Evolved" ∧
    evolvedDamaged.evolution_line.head? = some "Base" ∧
    ("Evolved" : String) ≠ "Base" := by
  refine ⟨?_, ?_, rfl, by decide⟩ <;>
    simp [regenerate_pokemon, Pokemon.set_health, baseTemplate, evolvedDamaged]

theorem apply_op_refs (op : CombatOp) (m : TeamMem) :
    (apply_op op m).team_refs = m.team_refs ∧
    (apply_op op m).original_refs = m.original_refs := by
  obtain ⟨store, refs, orefs⟩ := m
  cases op <;> cases refs <;> exact ⟨rfl, rfl⟩

theorem apply_ops_refs (ops : List CombatOp) (m : TeamMem) :
    (apply_ops ops m).team_refs = m.team_refs ∧
    (apply_ops ops m).original_refs = m.original_refs := by
  induction ops generalizing m with
  | nil => exact ⟨rfl, rfl⟩
  | cons op ops ih =>
    exact ⟨((ih (apply_op op m)).1).trans (apply_op_refs op m).1,
           ((ih (apply_op op m)).2).trans (apply_op_refs op m).2⟩

/-- C4 (amended): combat never rewrites the snapshot's reference list, but
the snapshot references the very combatant objects the live team mutates —
after any sequence of in-battle defend/level-up operations, reading the
snapshot yields the live, mutated stats, not the assembly-time values. -/
theorem snapshot_aliases_live (picks : List Pokemon) (ops : List CombatOp) :
    (apply_ops ops (choose_team picks)).original_refs =
      (choose_team picks).original_refs ∧
    (apply_ops ops (choose_team picks)).team_refs =
      (choose_team picks).team_refs ∧
    snapshot_stats (apply_ops ops (choose_team picks)) =
      live_stats (apply_ops ops (choose_team picks)) := by
  refine ⟨(apply_ops_refs ops (choose_team picks)).2,
    (apply_ops_refs ops (choose_team picks)).1, ?_⟩
  unfold snapshot_stats live_stats
  rw [(apply_ops_refs ops (choose_team picks)).1,
    (apply_ops_refs ops (choose_team picks)).2]
  rfl

/-- Counterexample to C4 as stated: a single defend of the live team's
front combatant changes the stats recorded by the pristine snapshot — the
snapshot is mutated by combat, because it aliases the live combatants. -/
theorem snapshot_mutated_cex :
    snapshot_stats (apply_op (CombatOp.defend_op 5) (choose_team [victimPoke])) ≠
      snapshot_stats (choose_team [victimPoke]) ∧
    (snapshot_stats (apply_op (CombatOp.defend_op 5)
        (choose_team [victimPoke]))).map Pokemon.health = [5] ∧
    (snapshot_stats (choose_team [victimPoke])).map Pokemon.health = [10] := by
  refine ⟨?_, ?_, ?_⟩ <;>
    norm_num [snapshot_stats, apply_op, apply_front, choose_team,
      Pokemon.defend, victimPoke, Pokemon.mk.injEq, List.range_succ,
      List.range_zero, List.getD]

theorem Battle.attack_and_defend_defender (eff : Eff) (a d : Pokemon)
    (da dd : Finset ℕ) :
    (Battle.attack_and_defend eff a d da dd).defender =
      d.defend ⌈Pokemon.attack eff a d *
        (get_pokedex_completion da / get_pokedex_completion dd)⌉ := by
  unfold Battle.attack_and_defend
  dsimp only
  split <;> rfl

theorem Battle.attack_and_defend_removed (eff : Eff) (a d : Pokemon)
    (da dd : Finset ℕ) :
    (Battle.attack_and_defend eff a d da dd).defender_removed =
      !(Battle.attack_and_defend eff a d da dd).defender.is_alive := by
  unfold Battle.attack_and_defend
  dsimp only
  split
  next h => simp [h]
  next h => simp at h; simp [h]

theorem Battle.attack_and_defend_attacker_dead (eff : Eff) (a d : Pokemon)
    (da dd : Finset ℕ)
    (h : (Battle.attack_and_defend eff a d da dd).defender.is_alive = false) :
    (Battle.attack_and_defend eff a d da dd).attacker = a.level_up := by
  unfold Battle.attack_and_defend at h ⊢
  dsimp only at h ⊢
  split at h
  next hc => simp_all
  next hc => simp_all

theorem Battle.attack_and_defend_attacker_alive (eff : Eff) (a d : Pokemon)
    (da dd : Finset ℕ)
    (h : (Battle.attack_and_defend eff a d da dd).defender.is_alive = true) :
    (Battle.attack_and_defend eff a d da dd).attacker = a := by
  unfold Battle.attack_and_defend at h ⊢
  dsimp only at h ⊢
  split at h
  next hc => simp_all
  next hc => simp_all

/-- C1 (amended): when the defender faints from a direct
`attack_and_defend`, the fainted defender IS removed from its roster and
the attacker IS leveled up — the `killed` call in `attack_and_defend` uses
the default `together_dead = False`, so `winner_pokemon.level_up()` runs. -/
theorem attack_and_defend_faint_levels_up (eff : Eff) (attacker defender : Pokemon)
    (dex_attacker dex_defender : Finset ℕ)
    (h : (Battle.attack_and_defend eff attacker defender
            dex_attacker dex_defender).defender.is_alive = false) :
    (Battle.attack_and_defend eff attacker defender
        dex_attacker dex_defender).defender_removed = true ∧
    (Battle.attack_and_defend eff attacker defender
        dex_attacker dex_defender).attacker.level = attacker.level + 1 := by
  constructor
  · rw [Battle.attack_and_defend_removed, h]
    rfl
  · rw [Battle.attack_and_defend_attacker_dead eff attacker defender _ _ h]
    exact Pokemon.level_up_level attacker

theorem attack_and_defend_faint_levels_up_witness :
    (Battle.attack_and_defend effOne strikerPoke victimPoke
        dexOne dexOne).defender_removed = true ∧
    (Battle.attack_and_defend effOne strikerPoke victimPoke
        dexOne dexOne).attacker.level = strikerPoke.level + 1 :=
  attack_and_defend_faint_levels_up effOne strikerPoke victimPoke dexOne dexOne
    (by norm_num [Battle.attack_and_defend, Pokemon.attack, Pokemon.defend,
      Pokemon.is_alive, get_pokedex_completion, round2, dexOne, NUM_POKE_TYPES,
      round_eq, effOne, strikerPoke, victimPoke])

theorem Battle.fight_equal_speed (eff : Eff) (p1 p2 : Pokemon)
    (dex1 dex2 : Finset ℕ) (hspeed : p1.speed = p2.speed) :
    Battle.fight eff p1 p2 dex1 dex2 =
      (let d1 := register_pokemon dex1 p2
       let d2 := register_pokemon dex2 p1
       let o1 := Battle.attack_and_defend eff p1 p2 d1 d2
       let o2 := Battle.attack_and_defend eff o1.defender o1.attacker d2 d1
       let pr := Battle.post_round o2.defender o2.attacker
         o2.defender_removed o1.defender_removed
       { p1 := pr.1, p2 := pr.2.1, removed1 := pr.2.2.1, removed2 := pr.2.2.2,
         dex1 := d1, dex2 := d2 }) := by
  unfold Battle.fight
  dsimp only
  rw [if_neg (show ¬ (p1.speed ≠ p2.speed) by simp [hspeed])]

/-- C2 (amended): in an equal-speed clash in which each executed attack is
lethal, both Pokemon are removed from their rosters in the same round, and
BOTH Pokemon level up (each `killed` call made from `attack_and_defend`
runs with `together_dead = False`, leveling its attacker — even the
already-fainted one making its posthumous simultaneous attack). -/
theorem equal_speed_mutual_lethal (eff : Eff) (p1 p2 : Pokemon)
    (rest1 rest2 : List Pokemon) (dex1 dex2 : Finset ℕ)
    (hspeed : p1.speed = p2.speed)
    (h1 : (Battle.attack_and_defend eff p1 p2
            (register_pokemon dex1 p2) (register_pokemon dex2 p1)).defender.is_alive
          = false)
    (h2 : (Battle.attack_and_defend eff
            (Battle.attack_and_defend eff p1 p2
              (register_pokemon dex1 p2) (register_pokemon dex2 p1)).defender
            (Battle.attack_and_defend eff p1 p2
              (register_pokemon dex1 p2) (register_pokemon dex2 p1)).attacker
            (register_pokemon dex2 p1) (register_pokemon dex1 p2)).defender.is_alive
          = false) :
    (Battle.fight eff p1 p2 dex1 dex2).removed1 = true ∧
    (Battle.fight eff p1 p2 dex1 dex2).removed2 = true ∧
    (Battle.fight eff p1 p2 dex1 dex2).p1.level = p1.level + 1 ∧
    (Battle.fight eff p1 p2 dex1 dex2).p2.level = p2.level + 1 ∧
    Battle.round_step eff ⟨p1 :: rest1, dex1⟩ ⟨p2 :: rest2, dex2⟩ =
      ({ team := rest1, pokedex := register_pokemon dex1 p2 },
       { team := rest2, pokedex := register_pokemon dex2 p1 }) := by
  set d1 := register_pokemon dex1 p2 with hd1
  set d2 := register_pokemon dex2 p1 with hd2
  set o1 := Battle.attack_and_defend eff p1 p2 d1 d2 with ho1
  set o2 := Battle.attack_and_defend eff o1.defender o1.attacker d2 d1 with ho2
  have hr1 : o2.defender_removed = true := by
    rw [ho2, Battle.attack_and_defend_removed]
    rw [← ho2, h2]
    rfl
  have hr2 : o1.defender_removed = true := by
    rw [ho1, Battle.attack_and_defend_removed]
    rw [← ho1, h1]
    rfl
  have hfight : Battle.fight eff p1 p2 dex1 dex2 =
      { p1 := o2.defender, p2 := o2.attacker, removed1 := o2.defender_removed,
        removed2 := o1.defender_removed, dex1 := d1, dex2 := d2 } := by
    rw [Battle.fight_equal_speed eff p1 p2 dex1 dex2 hspeed]
    dsimp only
    rw [← hd1, ← hd2, ← ho1, ← ho2]
    rw [Battle.post_round, if_neg (by rw [h2]; simp)]
  have hlvl1 : o2.defender.level = p1.level + 1 := by
    rw [ho2, Battle.attack_and_defend_defender, Pokemon.defend_level]
    rw [Battle.attack_and_defend_attacker_dead eff p1 p2 d1 d2 h1]
    exact Pokemon.level_up_level p1
  have hlvl2 : o2.attacker.level = p2.level + 1 := by
    rw [ho2, Battle.attack_and_defend_attacker_dead _ _ _ _ _ h2]
    rw [Pokemon.level_up_level]
    rw [ho1, Battle.attack_and_defend_defender, Pokemon.defend_level]
  refine ⟨?_, ?_, ?_, ?_, ?_⟩
  · rw [hfight]; exact hr1
  · rw [hfight]; exact hr2
  · rw [hfight]; exact hlvl1
  · rw [hfight]; exact hlvl2
  · rw [Battle.round_step]
    dsimp only
    rw [hfight]
    dsimp only
    rw [hr1, hr2]
    simp

/-- C9: in a different-speed clash the faster Pokemon attacks first via
`attack_and_defend`, and the slower one makes a return attack if and only
if it is still alive after that first attack.  The first conjunct covers a
faster `p1`, the second a faster `p2`; in each, the first implication is
the no-return-attack case (slower fainted: the round ends with exactly the
one `attack_and_defend` applied, the faster Pokemon untouched) and the
second is the return-attack case (the slower's `attack_and_defend` runs,
then the chip-damage step). -/
theorem fight_speed_order (eff : Eff) (p1 p2 : Pokemon) (dex1 dex2 : Finset ℕ)
    (hne : p1.speed ≠ p2.speed) :
    (let d1 := register_pokemon dex1 p2
     let d2 := register_pokemon dex2 p1
     let oF := Battle.attack_and_defend eff p1 p2 d1 d2
     let oS := Battle.attack_and_defend eff p2 p1 d2 d1
     (p2.speed < p1.speed →
       (oF.defender.is_alive = false →
         Battle.fight eff p1 p2 dex1 dex2 =
           { p1 := oF.attacker, p2 := oF.defender, removed1 := false,
             removed2 := oF.defender_removed, dex1 := d1, dex2 := d2 }) ∧
       (oF.defender.is_alive = true →
         Battle.fight eff p1 p2 dex1 dex2 =
           (let o2 := Battle.attack_and_defend eff oF.defender oF.attacker d2 d1
            let pr := Battle.post_round o2.defender o2.attacker
              o2.defender_removed oF.defender_removed
            { p1 := pr.1, p2 := pr.2.1, removed1 := pr.2.2.1,
              removed2 := pr.2.2.2, dex1 := d1, dex2 := d2 }))) ∧
     (p1.speed < p2.speed →
       (oS.defender.is_alive = false →
         Battle.fight eff p1 p2 dex1 dex2 =
           { p1 := oS.defender, p2 := oS.attacker,
             removed1 := oS.defender_removed, removed2 := false,
             dex1 := d1, dex2 := d2 }) ∧
       (oS.defender.is_alive = true →
         Battle.fight eff p1 p2 dex1 dex2 =
           (let o2 := Battle.attack_and_defend eff oS.defender oS.attacker d1 d2
            let pr := Battle.post_round o2.attacker o2.defender
              oS.defender_removed o2.defender_removed
            { p1 := pr.1, p2 := pr.2.1, removed1 := pr.2.2.1,
              removed2 := pr.2.2.2, dex1 := d1, dex2 := d2 })))) := by
  dsimp only
  refine ⟨fun hgt => ⟨fun hdead => ?_, fun halive => ?_⟩,
          fun hlt => ⟨fun hdead => ?_, fun halive => ?_⟩⟩
  · unfold Battle.fight Battle.fight_ordered
    dsimp only
    rw [if_pos hne, if_pos hgt, if_neg (by rw [hdead]; simp)]
    rw [Battle.post_round, if_neg (by rw [hdead]; simp)]
  · unfold Battle.fight Battle.fight_ordered
    dsimp only
    rw [if_pos hne, if_pos hgt, if_pos halive]
  · unfold Battle.fight Battle.fight_ordered
    dsimp only
    rw [if_pos hne, if_neg (not_lt.mpr (le_of_lt hlt)), if_neg (by rw [hdead]; simp)]
    rw [Battle.post_round, if_neg (by rw [hdead]; simp)]
  · unfold Battle.fight Battle.fight_ordered
    dsimp only
    rw [if_pos hne, if_neg (not_lt.mpr (le_of_lt hlt)), if_pos halive]

theorem fight_speed_order_witness :
    Battle.fight effOne strikerPoke victimPoke ∅ ∅ =
      { p1 := (Battle.attack_and_defend effOne strikerPoke victimPoke
          (register_pokemon ∅ victimPoke) (register_pokemon ∅ strikerPoke)).attacker,
        p2 := (Battle.attack_and_defend effOne strikerPoke victimPoke
          (register_pokemon ∅ victimPoke) (register_pokemon ∅ strikerPoke)).defender,
        removed1 := false,
        removed2 := (Battle.attack_and_defend effOne strikerPoke victimPoke
          (register_pokemon ∅ victimPoke) (register_pokemon ∅ strikerPoke)).defender_removed,
        dex1 := register_pokemon ∅ victimPoke,
        dex2 := register_pokemon ∅ strikerPoke } :=
  ((fight_speed_order effOne strikerPoke victimPoke ∅ ∅
      (by norm_num [strikerPoke, victimPoke])).1
    (by norm_num [strikerPoke, victimPoke])).1
    (by norm_num [Battle.attack_and_defend, Pokemon.attack, Pokemon.defend,
      Pokemon.is_alive, register_pokemon, get_pokedex_completion, round2,
      NUM_POKE_TYPES, round_eq, effOne, strikerPoke, victimPoke])

theorem equal_speed_mutual_lethal_witness :
    (Battle.fight effOne mirrorOne mirrorTwo ∅ ∅).removed1 = true ∧
    (Battle.fight effOne mirrorOne mirrorTwo ∅ ∅).removed2 = true ∧
    (Battle.fight effOne mirrorOne mirrorTwo ∅ ∅).p1.level = mirrorOne.level + 1 ∧
    (Battle.fight effOne mirrorOne mirrorTwo ∅ ∅).p2.level = mirrorTwo.level + 1 ∧
    Battle.round_step effOne ⟨[mirrorOne], ∅⟩ ⟨[mirrorTwo], ∅⟩ =
      ({ team := [], pokedex := register_pokemon ∅ mirrorTwo },
       { team := [], pokedex := register_pokemon ∅ mirrorOne }) :=
  equal_speed_mutual_lethal effOne mirrorOne mirrorTwo [] [] ∅ ∅ rfl
    (by norm_num [Battle.attack_and_defend, Pokemon.attack, Pokemon.defend,
      Pokemon.is_alive, Pokemon.level_up, Pokemon.evolve, register_pokemon,
      get_pokedex_completion, round2, NUM_POKE_TYPES, round_eq, effOne,
      mirrorOne, mirrorTwo])
    (by norm_num [Battle.attack_and_defend, Pokemon.attack, Pokemon.defend,
      Pokemon.is_alive, Pokemon.level_up, Pokemon.evolve, register_pokemon,
      get_pokedex_completion, round2, NUM_POKE_TYPES, round_eq, effOne,
      mirrorOne, mirrorTwo])

/-- Counterexample to C2 as stated: a concrete equal-speed clash where each
attack is lethal.  Both Pokemon are removed in the same round — but both
level up from 1 to 2, contradicting the claim that neither levels up. -/
theorem equal_speed_mutual_lethal_cex :
    (Battle.fight effOne mirrorOne mirrorTwo ∅ ∅).removed1 = true ∧
    (Battle.fight effOne mirrorOne mirrorTwo ∅ ∅).removed2 = true ∧
    (Battle.fight effOne mirrorOne mirrorTwo ∅ ∅).p1.level = 2 ∧
    (Battle.fight effOne mirrorOne mirrorTwo ∅ ∅).p2.level = 2 ∧
    mirrorOne.level = 1 ∧ mirrorTwo.level = 1 := by
  norm_num [Battle.fight, Battle.post_round, Battle.deduct_two,
    Battle.attack_and_defend, Pokemon.attack, Pokemon.defend,
    Pokemon.is_alive, Pokemon.level_up, Pokemon.evolve, register_pokemon,
    get_pokedex_completion, round2, NUM_POKE_TYPES, round_eq, effOne,
    mirrorOne, mirrorTwo]

/-- C7: whatever per-round step the battle mode uses, the round loop stops
exactly when a roster has become empty, and `battle_result` then reports
the owner of the non-empty roster as the winner — or a draw (no winner)
when both rosters emptied in the same round. -/
theorem battle_loop_result
    (step : TrainerState → TrainerState → TrainerState × TrainerState)
    (fuel : ℕ) (t1 t2 : TrainerState) (i : ℕ) (trace trace2 : List String)
    (s1 s2 : TrainerState)
    (h : Battle.battle_loop step fuel t1 t2 i trace = (trace2, some (s1, s2))) :
    (s1.team.length = 0 ∨ s2.team.length = 0) ∧
    (s1.team.length = 0 → s2.team.length ≠ 0 →
      Battle.battle_result s1 s2 = some false) ∧
    (s2.team.length = 0 → s1.team.length ≠ 0 →
      Battle.battle_result s1 s2 = some true) ∧
    (s1.team.length = 0 → s2.team.length = 0 →
      Battle.battle_result s1 s2 = none) := by
  refine ⟨?_, ?_, ?_, ?_⟩
  · induction fuel generalizing t1 t2 i trace with
    | zero => exact absurd h (by simp [Battle.battle_loop])
    | succ n ih =>
      rw [Battle.battle_loop] at h
      split at h
      · exact ih _ _ _ _ h
      · next hc =>
        simp only [Prod.mk.injEq, Option.some.injEq] at h
        obtain ⟨-, h1, h2⟩ := h
        subst h1
        subst h2
        omega
  · intro h1 h2
    unfold Battle.battle_result
    rw [if_neg (by omega), if_pos h1]
  · intro h1 h2
    unfold Battle.battle_result
    rw [if_neg (by omega), if_neg (by omega)]
  · intro h1 h2
    unfold Battle.battle_result
    rw [if_pos ⟨h1, h2⟩]

/-- C8: starting a battle yields the `ValueError` exactly when a roster is
empty at entry; in that case no combat narration at all is emitted; and
with both rosters non-empty the outcome is an `ok` value, never that
error. -/
theorem commence_battle_empty_roster
    (step : TrainerState → TrainerState → TrainerState × TrainerState)
    (fuel : ℕ) (t1 t2 : TrainerState) :
    ((Battle.commence_battle step fuel t1 t2).2 =
        Except.error "Both trainers must have teams to commence battle" ↔
      (t1.team.length = 0 ∨ t2.team.length = 0)) ∧
    ((t1.team.length = 0 ∨ t2.team.length = 0) →
      (Battle.commence_battle step fuel t1 t2).1 = []) ∧
    (¬ (t1.team.length = 0 ∨ t2.team.length = 0) →
      ∃ r, (Battle.commence_battle step fuel t1 t2).2 = Except.ok r) := by
  unfold Battle.commence_battle
  by_cases hc : t1.team.length ≤ 0 ∨ t2.team.length ≤ 0
  · rw [if_pos hc]
    refine ⟨⟨fun _ => by omega, fun _ => rfl⟩, fun _ => rfl, fun hn => absurd (by omega) hn⟩
  · rw [if_neg hc]
    refine ⟨⟨fun he => absurd he (by simp), fun hn => absurd (by omega) hc⟩,
      fun hn => absurd (by omega) hc, fun _ => ⟨_, rfl⟩⟩

theorem battle_loop_result_witness :
    (((⟨[strikerPoke.level_up], register_pokemon ∅ victimPoke⟩ : TrainerState).team.length = 0 ∨
      (⟨[], register_pokemon ∅ strikerPoke⟩ : TrainerState).team.length = 0) ∧
     ((⟨[strikerPoke.level_up], register_pokemon ∅ victimPoke⟩ : TrainerState).team.length = 0 →
      (⟨[], register_pokemon ∅ strikerPoke⟩ : TrainerState).team.length ≠ 0 →
        Battle.battle_result ⟨[strikerPoke.level_up], register_pokemon ∅ victimPoke⟩
          ⟨[], register_pokemon ∅ strikerPoke⟩ = some false) ∧
     ((⟨[], register_pokemon ∅ strikerPoke⟩ : TrainerState).team.length = 0 →
      (⟨[strikerPoke.level_up], register_pokemon ∅ victimPoke⟩ : TrainerState).team.length ≠ 0 →
        Battle.battle_result ⟨[strikerPoke.level_up], register_pokemon ∅ victimPoke⟩
          ⟨[], register_pokemon ∅ strikerPoke⟩ = some true) ∧
     ((⟨[strikerPoke.level_up], register_pokemon ∅ victimPoke⟩ : TrainerState).team.length = 0 →
      (⟨[], register_pokemon ∅ strikerPoke⟩ : TrainerState).team.length = 0 →
        Battle.battle_result ⟨[strikerPoke.level_up], register_pokemon ∅ victimPoke⟩
          ⟨[], register_pokemon ∅ strikerPoke⟩ = none)) :=
  battle_loop_result (Battle.round_step effOne) 2 ⟨[strikerPoke], ∅⟩ ⟨[victimPoke], ∅⟩
    0 [] ["~ Round " ++ toString (0 + 1) ++ " ~"]
    ⟨[strikerPoke.level_up], register_pokemon ∅ victimPoke⟩
    ⟨[], register_pokemon ∅ strikerPoke⟩
    (by norm_num [Battle.battle_loop, Battle.round_step, Battle.fight,
      Battle.fight_ordered, Battle.post_round, Battle.deduct_two,
      Battle.attack_and_defend, Pokemon.attack, Pokemon.defend, Pokemon.is_alive,
      Pokemon.level_up, Pokemon.evolve, register_pokemon, get_pokedex_completion,
      round2, NUM_POKE_TYPES, round_eq, effOne, strikerPoke, victimPoke])

theorem commence_battle_empty_roster_witness :
    (((Battle.commence_battle (Battle.round_step effOne) 1
          ⟨[], ∅⟩ ⟨[victimPoke], ∅⟩).2 =
        Except.error "Both trainers must have teams to commence battle" ↔
      ((⟨[], ∅⟩ : TrainerState).team.length = 0 ∨
        (⟨[victimPoke], ∅⟩ : TrainerState).team.length = 0)) ∧
     (((⟨[], ∅⟩ : TrainerState).team.length = 0 ∨
        (⟨[victimPoke], ∅⟩ : TrainerState).team.length = 0) →
      (Battle.commence_battle (Battle.round_step effOne) 1
          ⟨[], ∅⟩ ⟨[victimPoke], ∅⟩).1 = []) ∧
     (¬ ((⟨[], ∅⟩ : TrainerState).team.length = 0 ∨
          (⟨[victimPoke], ∅⟩ : TrainerState).team.length = 0) →
      ∃ r, (Battle.commence_battle (Battle.round_step effOne) 1
          ⟨[], ∅⟩ ⟨[victimPoke], ∅⟩).2 = Except.ok r)) :=
  commence_battle_empty_roster (Battle.round_step effOne) 1 ⟨[], ∅⟩ ⟨[victimPoke], ∅⟩

/-- Counterexample to C1 as stated: in this clash the defender's health
drops below 0 inside `attack_and_defend`, the defender is removed, and the
attacker's level does NOT stay unchanged — it rises from 1 to 2. -/
theorem attack_and_defend_faint_cex :
    (Battle.attack_and_defend effOne strikerPoke victimPoke
        dexOne dexOne).defender.is_alive = false ∧
    (Battle.attack_and_defend effOne strikerPoke victimPoke
        dexOne dexOne).defender_removed = true ∧
    (Battle.attack_and_defend effOne strikerPoke victimPoke
        dexOne dexOne).attacker.level ≠ strikerPoke.level := by
  norm_num [Battle.attack_and_defend, Pokemon.attack, Pokemon.defend,
    Pokemon.is_alive, Pokemon.level_up, Pokemon.evolve, get_pokedex_completion,
    round2, dexOne, NUM_POKE_TYPES, round_eq, effOne, strikerPoke, victimPoke]

theorem special_after_eq (n : ℕ) : special_after n = decide (n % 2 = 1) := by
  induction n with
  | zero => rfl
  | succ k ih =>
    rw [special_after, ih]
    by_cases h : k % 2 = 1
    · simp [h, show (k + 1) % 2 = 0 by omega]
    · simp [h, show (k + 1) % 2 = 1 by omega]

theorem assign_team_sorted_aux (items acc : List (Pokemon × ℚ × ℚ))
    (hacc : acc.Sorted item_le) :
    (items.foldl (fun assembled item => List.orderedInsert item_le item assembled)
      acc).Sorted item_le := by
  induction items generalizing acc with
  | nil => exact hacc
  | cons it items ih => exact ih _ (hacc.orderedInsert it _)

theorem assign_team_perm_aux (items acc : List (Pokemon × ℚ × ℚ)) :
    (items.foldl (fun assembled item => List.orderedInsert item_le item assembled)
      acc).Perm (items ++ acc) := by
  induction items generalizing acc with
  | nil => simp
  | cons it items ih =>
    refine (ih (List.orderedInsert item_le it acc)).trans ?_
    refine (List.Perm.append_left items (List.perm_orderedInsert item_le it acc)).trans ?_
    exact List.perm_middle

/-- C5 (amended): after `assign_team` with a recognized criterion, adjacent
elements are ordered by the stored key `direction × stat` (so
direction×key(a) ≤ direction×key(b) holds for every adjacent pair), and
ties on that key are ordered by `direction × original index` — original
relative order when `special` has been called an even number of times, but
REVERSED original order after an odd number of calls, since the index
tie-break is also multiplied by the direction; the direction is reversed
exactly when `special_called` is set, i.e. after an odd number of
`special` calls. -/
theorem assign_team_resort_order (special_called : Bool) (criterion : String)
    (team : List Pokemon) (hcrit : criterion ∈ CRITERION_LIST) :
    (assign_team special_called criterion team).Chain'
      (fun a b => a.2.1 ≤ b.2.1 ∧ (a.2.1 = b.2.1 → a.2.2 ≤ b.2.2)) ∧
    (assign_team special_called criterion team).Perm
      (team.enum.map fun pr =>
        (pr.2, ((if special_called then (-1 : ℚ) else 1) * get_criterion criterion pr.2,
                (if special_called then (-1 : ℚ) else 1) * (pr.1 : ℚ)))) ∧
    (∀ n, special_after n = true ↔ n % 2 = 1) := by
  refine ⟨?_, ?_, fun n => by rw [special_after_eq]; simp⟩
  · have hs : (assign_team special_called criterion team).Sorted item_le :=
      assign_team_sorted_aux _ [] List.sorted_nil
    refine (List.Pairwise.chain' hs).imp fun a b h => ?_
    rcases h with h | ⟨h1, h2⟩
    · exact ⟨le_of_lt h, fun heq => absurd (heq ▸ h) (lt_irrefl _)⟩
    · exact ⟨le_of_eq h1, fun _ => h2⟩
  · have hp := assign_team_perm_aux
      (team.enum.map fun pr =>
        (pr.2, ((if special_called then (-1 : ℚ) else 1) * get_criterion criterion pr.2,
                (if special_called then (-1 : ℚ) else 1) * (pr.1 : ℚ)))) []
    rw [List.append_nil] at hp
    exact hp

theorem assign_team_resort_order_witness :
    (assign_team false "health" [tieA, tieB]).Chain'
      (fun a b => a.2.1 ≤ b.2.1 ∧ (a.2.1 = b.2.1 → a.2.2 ≤ b.2.2)) ∧
    (assign_team false "health" [tieA, tieB]).Perm
      ([tieA, tieB].enum.map fun pr =>
        (pr.2, ((if false then (-1 : ℚ) else 1) * get_criterion "health" pr.2,
                (if false then (-1 : ℚ) else 1) * (pr.1 : ℚ)))) ∧
    (∀ n, special_after n = true ↔ n % 2 = 1) :=
  assign_team_resort_order false "health" [tieA, tieB] (by simp [CRITERION_LIST])

/-- Counterexample to C5 as stated: one `special` call (odd) reverses the
direction, and then two stat-tied elements come out in REVERSED original
order — the tie-break key `order × index` is negated too, so ties do not
fall back to the original relative order. -/
theorem assign_team_tie_cex :
    special_after 1 = true ∧
    tieA.health = tieB.health ∧ tieA.name ≠ tieB.name ∧
    ((assign_team (special_after 1) "health" [tieA, tieB]).map
      fun it => it.1.name) = ["TieB", "TieA"] ∧
    ¬ ties_in_original_order (assign_team (special_after 1) "health" [tieA, tieB]) := by
  refine ⟨rfl, rfl, by decide, ?_, ?_⟩
  · norm_num [assign_team, special_after, get_criterion, tieA, tieB,
      List.enum, List.enumFrom, List.orderedInsert, item_le]
  · norm_num [ties_in_original_order, assign_team, special_after, get_criterion,
      tieA, tieB, List.enum, List.enumFrom, List.orderedInsert, item_le,
      List.chain'_cons, List.chain'_singleton, abs_neg, abs_one, abs_zero]

theorem stack_getitem_pop_spec (index : ℕ) :
    ∀ (team temp : List Pokemon) (h : index < team.length),
      stack_getitem_pop index team temp =
        (some (team.get ⟨index, h⟩), team.drop (index + 1),
          (team.take (index + 1)).reverse ++ temp) := by
  induction index with
  | zero =>
    intro team temp h
    match team with
    | x :: rest => rfl
  | succ i ih =>
    intro team temp h
    match team, h with
    | x :: rest, h =>
      have h2 : i < rest.length := by simpa using Nat.lt_of_succ_lt_succ h
      rw [show stack_getitem_pop (i + 1) (x :: rest) temp =
            stack_getitem_pop i rest (x :: temp) from rfl,
        ih rest (x :: temp) h2]
      simp [List.get_cons_succ, List.append_assoc]

theorem stack_push_back_eq (temp team : List Pokemon) :
    stack_push_back temp team = temp.reverse ++ team := by
  induction temp generalizing team with
  | nil => simp [stack_push_back]
  | cons x s ih =>
    rw [stack_push_back, ih]
    simp

theorem stack_getitem_spec (team : List Pokemon) (index : ℕ)
    (h : index < team.length) :
    stack_getitem team index = (some (team.get ⟨index, h⟩), team) := by
  unfold stack_getitem
  rw [stack_getitem_pop_spec index team [] h]
  dsimp only
  rw [stack_push_back_eq]
  simp

theorem queue_getitem_loop_rotate (index : ℕ) :
    ∀ (n i : ℕ) (q : List Pokemon) (found : Option Pokemon),
      (queue_getitem_loop index n i q found).2 = q.rotate n := by
  intro n
  induction n with
  | zero => intro i q found; simp [queue_getitem_loop]
  | succ m ih =>
    intro i q found
    match q with
    | [] => simp [queue_getitem_loop]
    | x :: rest =>
      rw [show queue_getitem_loop index (m + 1) i (x :: rest) found =
            queue_getitem_loop index m (i + 1) (rest ++ [x])
              (if i = index then some x else found) from rfl,
        ih, List.rotate_cons_succ]

theorem queue_getitem_loop_frozen (index : ℕ) :
    ∀ (n i : ℕ) (q : List Pokemon) (found : Option Pokemon), index < i →
      (queue_getitem_loop index n i q found).1 = found := by
  intro n
  induction n with
  | zero => intro i q found _; rfl
  | succ m ih =>
    intro i q found hlt
    match q with
    | [] => rfl
    | x :: rest =>
      rw [show queue_getitem_loop index (m + 1) i (x :: rest) found =
            queue_getitem_loop index m (i + 1) (rest ++ [x])
              (if i = index then some x else found) from rfl,
        if_neg (by omega), ih (i + 1) (rest ++ [x]) found (by omega)]

theorem queue_getitem_loop_found (index : ℕ) :
    ∀ (n i : ℕ) (q : List Pokemon) (found : Option Pokemon)
      (h1 : i ≤ index) (h2 : index < i + n) (h3 : index - i < q.length),
      (queue_getitem_loop index n i q found).1 = some (q.get ⟨index - i, h3⟩) := by
  intro n
  induction n with
  | zero => intro i q found h1 h2 h3; omega
  | succ m ih =>
    intro i q found h1 h2 h3
    match q, h3 with
    | x :: rest, h3 =>
      rw [show queue_getitem_loop index (m + 1) i (x :: rest) found =
            queue_getitem_loop index m (i + 1) (rest ++ [x])
              (if i = index then some x else found) from rfl]
      by_cases hi : i = index
      · rw [if_pos hi,
          queue_getitem_loop_frozen index m (i + 1) (rest ++ [x]) (some x) (by omega)]
        have hzero : index - i = 0 := by omega
        rw [← List.get?_eq_get h3, hzero, List.get?_cons_zero]
      · have hlt : i < index := by omega
        have h3r : index - (i + 1) < (rest ++ [x]).length := by
          simp only [List.length_append, List.length_cons, List.length_nil]
          simp only [List.length_cons] at h3
          omega
        rw [if_neg hi, ih (i + 1) (rest ++ [x]) found (by omega) (by omega) h3r]
        have hr : index - (i + 1) < rest.length := by
          simp only [List.length_cons] at h3
          omega
        have hstep : index - i = (index - (i + 1)) + 1 := by omega
        rw [← List.get?_eq_get h3r, ← List.get?_eq_get h3, hstep,
          List.get?_cons_succ, List.get?_append hr]

theorem queue_getitem_spec (team : List Pokemon) (index : ℕ)
    (h : index < team.length) :
    queue_getitem team index = (some (team.get ⟨index, h⟩), team) := by
  unfold queue_getitem
  have h1 := queue_getitem_loop_found index team.length 0 team none
    (Nat.zero_le index) (by omega) (by simpa using h)
  have h2 := queue_getitem_loop_rotate index team.length 0 team none
  rw [List.rotate_length] at h2
  refine Prod.ext ?_ h2
  rw [h1]
  congr 1

/-- C10: indexed access through `__getitem__` is non-destructive for every
ordering variant: the stack traversal and the queue cycling return the
Pokemon at the requested front-to-back position and restore the container
exactly, and the sorted-list / raw-array variants are direct reads. -/
theorem getitem_non_destructive (team : List Pokemon)
    (sorted_team : List (Pokemon × ℚ × ℚ)) (index : ℕ)
    (h1 : index < team.length) (h2 : index < sorted_team.length) :
    stack_getitem team index = (some (team.get ⟨index, h1⟩), team) ∧
    queue_getitem team index = (some (team.get ⟨index, h1⟩), team) ∧
    sorted_getitem sorted_team index = some (sorted_team.get ⟨index, h2⟩).1 ∧
    array_getitem team index = some (team.get ⟨index, h1⟩) := by
  refine ⟨stack_getitem_spec team index h1, queue_getitem_spec team index h1, ?_, ?_⟩
  · unfold sorted_getitem
    rw [List.get?_eq_get h2]
    rfl
  · unfold array_getitem
    exact List.get?_eq_get h1

theorem getitem_non_destructive_witness :
    stack_getitem [strikerPoke, victimPoke] 1 =
      (some ([strikerPoke, victimPoke].get ⟨1, by norm_num⟩),
        [strikerPoke, victimPoke]) ∧
    queue_getitem [strikerPoke, victimPoke] 1 =
      (some ([strikerPoke, victimPoke].get ⟨1, by norm_num⟩),
        [strikerPoke, victimPoke]) ∧
    sorted_getitem [(tieA, 9, 0), (tieB, 9, 1)] 1 =
      some (([(tieA, 9, 0), (tieB, 9, 1)].get ⟨1, by norm_num⟩)).1 ∧
    array_getitem [strikerPoke, victimPoke] 1 =
      some ([strikerPoke, victimPoke].get ⟨1, by norm_num⟩) :=
  getitem_non_destructive [strikerPoke, victimPoke] [(tieA, 9, 0), (tieB, 9, 1)] 1
    (by norm_num) (by norm_num)
